import Mathlib

/-!
Shallow embedding of the container lifecycle reconciler of
`ubo_app/services/080-docker/image.py`.

Daemon interactions (the blocking docker client calls) are modelled by
passing the daemon's responses as explicit data: the list of containers the
daemon would return from `containers.list(all=True)`, and the outcome of
`images.get(path)`.  Each embedded operation returns the list of actions it
dispatches into the store (and, where a claim needs it, the list of daemon
calls it performs), in order.
-/

namespace UboDocker

/-- `ImageStatus` of `ubo_app.store.services.docker`. -/
inductive ImageStatus where
  | NOT_AVAILABLE
  | FETCHING
  | AVAILABLE
  | CREATED
  | RUNNING
  | ERROR
deriving DecidableEq, Repr

/-- Notification importance (`ubo_app.store.services.notifications.Importance`). -/
inductive Importance where
  | LOW
  | MEDIUM
  | HIGH
  | CRITICAL
deriving DecidableEq, Repr

/-- An action dispatched into the store.  `setStatus` carries the optional
`ports`/`ip` payload exactly as `image.py` passes it (`[]` / `none` when the
call site omits the field). -/
inductive Action where
  | setStatus (image : String) (status : ImageStatus)
      (ports : List String) (ip : Option String)
  | setDockerId (image : String) (dockerId : String)
  | notify (title : String) (content : String) (importance : Importance)
deriving DecidableEq, Repr

/-- A daemon-side container, as far as `image.py` inspects it.
`imageTags` is `none` when reading `container.image` raises a
`DockerException` (suppressed in `find_container`) or yields a non-`Image`;
otherwise it is the tag list of the container's image.
`attrs` models `container.attrs`: `none` when falsy, otherwise
`some ip` where `ip` is
`attrs['NetworkSettings']['Networks']['bridge']['IPAddress']`.
`portBindings` flattens `container.ports.values()` to its
`(HostIp, HostPort)` pairs, in order. -/
structure Container where
  imageTags : Option (List String)
  status : String
  portBindings : List (String × String)
  attrs : Option String
deriving DecidableEq, Repr

/-- `find_container` (image.py:36-46): first container whose image's tags
contain the reference path; containers whose image cannot be read are
skipped. -/
def find_container (containers : List Container) (image : String) :
    Option Container :=
  containers.find? fun container =>
    match container.imageTags with
    | some tags => tags.contains image
    | none => false

/-- `update_container` (image.py:49-80): dispatch `RUNNING` with ports and
bridge ip when the container's status is `'running'`, else `CREATED`. -/
def update_container (image_id : String) (container : Container) :
    List Action :=
  if container.status = "running" then
    [Action.setStatus image_id ImageStatus.RUNNING
      (container.portBindings.map fun i => i.1 ++ ":" ++ i.2)
      container.attrs]
  else
    [Action.setStatus image_id ImageStatus.CREATED [] none]

/-- Outcome of `docker_client.images.get(path)`.
`found` is a genuine `Image` with its (possibly missing) `id`;
`foundOther` is a non-`Image` return value;
`notFound` is an `ImageNotFound` error;
`daemonError` is any other `DockerException`. -/
inductive ImageLookup where
  | found (id : Option String)
  | foundOther
  | notFound
  | daemonError
deriving DecidableEq, Repr

/-- Python truthiness of an optional string (`if image.id:`,
`if not ... .container_ip:`). -/
def truthy : Option String → Bool
  | none => false
  | some s => s ≠ ""

/-- What `check_container` produces: its dispatched actions, and whether the
event stream monitor was started (`_monitor_events` in the `finally`). -/
structure CheckResult where
  actions : List Action
  monitorStarted : Bool
deriving DecidableEq, Repr

/-- `check_container` (image.py:147-216).  The daemon responses are the
outcome of `images.get(path)` and the container list `find_container`
scans.  A non-`Image` return re-raises `ImageNotFound` (line 157).  The
`finally` block always runs `_monitor_events`. -/
def check_container (image_id path : String) (lookup : ImageLookup)
    (containers : List Container) : CheckResult :=
  match lookup with
  | ImageLookup.found id =>
      let idActions :=
        if truthy id then [Action.setDockerId image_id (id.getD "")] else []
      match find_container containers path with
      | some container =>
          ⟨idActions ++ update_container image_id container, true⟩
      | none =>
          ⟨idActions ++
            [Action.setStatus image_id ImageStatus.AVAILABLE [] none], true⟩
  | ImageLookup.foundOther =>
      ⟨[Action.setStatus image_id ImageStatus.NOT_AVAILABLE [] none], true⟩
  | ImageLookup.notFound =>
      ⟨[Action.setStatus image_id ImageStatus.NOT_AVAILABLE [] none], true⟩
  | ImageLookup.daemonError =>
      ⟨[Action.setStatus image_id ImageStatus.ERROR [] none], true⟩

/-- Outcome of `docker_client.api.pull(path, stream=True, decode=True)`:
the number of streamed progress lines, and whether the stream ended
normally or a `DockerException` was raised after those lines. -/
inductive PullResult where
  | success (lines : Nat)
  | failure (linesBefore : Nat)
deriving DecidableEq, Repr

/-- `_fetch_image` (image.py:219-261): dispatch `FETCHING`, re-dispatch
`FETCHING` per streamed line; a `DockerException` anywhere dispatches
`ERROR`; a normal end of the stream dispatches nothing further. -/
def fetch_image (image_id : String) (pull : PullResult) : List Action :=
  Action.setStatus image_id ImageStatus.FETCHING [] none ::
    match pull with
    | PullResult.success lines =>
        List.replicate lines
          (Action.setStatus image_id ImageStatus.FETCHING [] none)
    | PullResult.failure linesBefore =>
        List.replicate linesBefore
          (Action.setStatus image_id ImageStatus.FETCHING [] none) ++
          [Action.setStatus image_id ImageStatus.ERROR [] none]

/-- A record from the daemon's event feed.  Image events carry
`event['id']`, container events carry `event['from']`. -/
structure Event where
  type : String
  status : String
  id : String
  origin : String
deriving DecidableEq, Repr

/-- One iteration of the event loop of `_monitor_events` (image.py:93-144).
`current_docker_id` is the value `get_docker_id()` returns at this
iteration (the autorun selector reading the store's `docker_id` fresh);
`lookup` and `containers` are the daemon's responses should this event
trigger `images.get` / `find_container`.  In the `pull` branch every
`DockerException` (including `ImageNotFound`) dispatches `NOT_AVAILABLE`
(line 112-118); the docker id is recorded only after `AVAILABLE`, and only
when the lookup yielded an `Image` with a truthy id. -/
def monitor_step (image_id path : String) (current_docker_id : Option String)
    (lookup : ImageLookup) (containers : List Container) (event : Event) :
    List Action :=
  if event.type = "image" then
    if event.status = "pull" ∧ event.id = path then
      match lookup with
      | ImageLookup.found id =>
          Action.setStatus image_id ImageStatus.AVAILABLE [] none ::
            (if truthy id then [Action.setDockerId image_id (id.getD "")]
             else [])
      | ImageLookup.foundOther =>
          [Action.setStatus image_id ImageStatus.AVAILABLE [] none]
      | ImageLookup.notFound =>
          [Action.setStatus image_id ImageStatus.NOT_AVAILABLE [] none]
      | ImageLookup.daemonError =>
          [Action.setStatus image_id ImageStatus.NOT_AVAILABLE [] none]
    else if event.status = "delete" ∧ current_docker_id = some event.id then
      [Action.setStatus image_id ImageStatus.NOT_AVAILABLE [] none]
    else []
  else if event.type = "container" then
    if event.status = "start" ∧ event.origin = path then
      match find_container containers path with
      | some container => update_container image_id container
      | none => []
    else if event.status = "die" ∧ event.origin = path then
      [Action.setStatus image_id ImageStatus.CREATED [] none]
    else if event.status = "destroy" ∧ event.origin = path then
      [Action.setStatus image_id ImageStatus.AVAILABLE [] none]
    else []
  else []

/-- The store-owned per-image state (`ImageState` fields used here:
`status`, `docker_id`, `ports`, `container_ip`). -/
structure ImageStoreState where
  status : ImageStatus
  dockerId : Option String
  ports : List String
  ip : Option String
deriving DecidableEq, Repr

/-- Modelled from the spec: the docker service's reducer is not under
`src/` (only `image.py`, its importer, is).  Per §3 and §6 of the spec,
`SetStatus(image, status, ports?, ip?)` replaces the image's status and its
`ports`/`container_ip` with the payload carried by the action (clearing
them when the action omits them), and `SetDaemonId` records the daemon id;
other actions leave the image state untouched. -/
def apply_action (image_id : String) (s : ImageStoreState) :
    Action → ImageStoreState
  | Action.setStatus image status ports ip =>
      if image = image_id then
        { s with status := status, ports := ports, ip := ip }
      else s
  | Action.setDockerId image dockerId =>
      if image = image_id then { s with dockerId := some dockerId } else s
  | Action.notify _ _ _ => s

/-- Fold a dispatched action list into the store state of one image. -/
def apply_actions (image_id : String) (s : ImageStoreState)
    (actions : List Action) : ImageStoreState :=
  actions.foldl (apply_action image_id) s

/-- Daemon responses available to one monitor iteration, paired with the
event it processes. -/
structure EventCtx where
  event : Event
  lookup : ImageLookup
  containers : List Container
deriving Repr

/-- The monitor loop threading the store: each event is evaluated against
the store state as updated by the actions of the earlier events (the
`get_docker_id` autorun re-reads the store on every call).  Returns the
dispatched actions, per event, in order. -/
def monitor_trace (image_id path : String) (s : ImageStoreState) :
    List EventCtx → List (List Action)
  | [] => []
  | c :: rest =>
      let actions :=
        monitor_step image_id path s.dockerId c.lookup c.containers c.event
      actions :: monitor_trace image_id path
        (apply_actions image_id s actions) rest

/-- The store states right before each event of the monitor loop (and one
final state). -/
def monitor_states (image_id path : String) (s : ImageStoreState) :
    List EventCtx → List ImageStoreState
  | [] => [s]
  | c :: rest =>
      let actions :=
        monitor_step image_id path s.dockerId c.lookup c.containers c.event
      s :: monitor_states image_id path (apply_actions image_id s actions) rest

/-- A blocking call against the daemon, in the order `image.py` issues
them. -/
inductive DaemonCall where
  | listContainers
  | startContainer
  | runContainer (extraHosts : List (String × String))
  | stopContainer
  | removeContainer
  | removeImage
  | closeClient
deriving DecidableEq, Repr

/-- The whole `DockerState`, as `run_container`'s `hasattr`/`getattr`
probes it: an attribute per managed image id. -/
def DockerStateModel := List (String × ImageStoreState)

/-- `getattr(docker_state, value)` when `hasattr(docker_state, value)`. -/
def lookupState (docker_state : DockerStateModel) (value : String) :
    Option ImageStoreState :=
  (docker_state.find? fun p => p.1 = value).map Prod.snd

/-- The dependency loop of `run_container` (image.py:283-311): walk the
declared `hosts` map in order; a target that is not an attribute of
`docker_state` aborts with a "not loaded" notification; a target whose
state has a falsy `container_ip` aborts with a "does not have an IP
address" notification; otherwise the re-checked `hasattr` (line 308, always
true here) stores the target's ip — the `else` arm storing the literal
`value` (line 311) is unreachable. -/
def resolve_hosts (docker_state : DockerStateModel) :
    List (String × String) → Except Action (List (String × String))
  | [] => Except.ok []
  | (key, value) :: rest =>
      match lookupState docker_state value with
      | none =>
          Except.error (Action.notify "Dependency error"
            ("Container \"" ++ value ++ "\" is not loaded") Importance.MEDIUM)
      | some state =>
          if truthy state.ip then
            let entry :=
              match lookupState docker_state value with
              | some s => (key, s.ip.getD "")
              | none => (key, value)
            match resolve_hosts docker_state rest with
            | Except.ok entries => Except.ok (entry :: entries)
            | Except.error a => Except.error a
          else
            Except.error (Action.notify "Dependency error"
              ("Container \"" ++ value ++ "\" does not have an IP address")
              Importance.MEDIUM)

/-- What a daemon-mutating operation produces: its daemon calls and its
dispatched actions, each in order. -/
structure OpResult where
  calls : List DaemonCall
  actions : List Action
deriving DecidableEq, Repr

/-- `run_container` (image.py:275-326): look the container up first; if one
exists, start it unless already running (no dependency resolution at all);
otherwise resolve the declared hosts and create the container with the
resolved `extra_hosts` — or abort on the first unmet dependency with a
single notification, before the `containers.run` call (and before
`close`). -/
def run_container (path : String) (hosts : List (String × String))
    (docker_state : DockerStateModel) (containers : List Container) :
    OpResult :=
  match find_container containers path with
  | some container =>
      if container.status ≠ "running" then
        ⟨[DaemonCall.listContainers, DaemonCall.startContainer,
          DaemonCall.closeClient], []⟩
      else
        ⟨[DaemonCall.listContainers, DaemonCall.closeClient], []⟩
  | none =>
      match resolve_hosts docker_state hosts with
      | Except.error a => ⟨[DaemonCall.listContainers], [a]⟩
      | Except.ok extraHosts =>
          ⟨[DaemonCall.listContainers, DaemonCall.runContainer extraHosts,
            DaemonCall.closeClient], []⟩

/-- `_stop_container` (image.py:331-339): stop the found container unless
its status is `'exited'`; dispatch nothing. -/
def stop_container (path : String) (containers : List Container) : OpResult :=
  match find_container containers path with
  | some container =>
      if container.status ≠ "exited" then
        ⟨[DaemonCall.listContainers, DaemonCall.stopContainer,
          DaemonCall.closeClient], []⟩
      else
        ⟨[DaemonCall.listContainers, DaemonCall.closeClient], []⟩
  | none => ⟨[DaemonCall.listContainers, DaemonCall.closeClient], []⟩

/-- `_remove_image` (image.py:264-270): force-remove the image by path;
dispatch nothing. -/
def remove_image : OpResult :=
  ⟨[DaemonCall.removeImage, DaemonCall.closeClient], []⟩

/-- `_remove_container` (image.py:342-350): force-remove the found
container, if any; dispatch nothing. -/
def remove_container (path : String) (containers : List Container) :
    OpResult :=
  match find_container containers path with
  | some _ =>
      ⟨[DaemonCall.listContainers, DaemonCall.removeContainer,
        DaemonCall.closeClient], []⟩
  | none => ⟨[DaemonCall.listContainers, DaemonCall.closeClient], []⟩

/-! Specification-side helper predicates. -/

/-- Is this action a status-changing store action (as opposed to a user
notification)? -/
def isStoreAction : Action → Bool
  | Action.setStatus _ _ _ _ => true
  | Action.setDockerId _ _ => true
  | Action.notify _ _ _ => false

/-- The status carried by the last `setStatus` action of a dispatched
list, if any. -/
def finalStatus (actions : List Action) : Option ImageStatus :=
  actions.foldl
    (fun acc a =>
      match a with
      | Action.setStatus _ status _ _ => some status
      | _ => acc)
    none

/-- The first dependency target of a declared hosts map that is unmet in
`docker_state`: either no record at all, or a record without a truthy
`container_ip`. -/
def firstUnmet (docker_state : DockerStateModel) :
    List (String × String) → Option String
  | [] => none
  | (_, value) :: rest =>
      match lookupState docker_state value with
      | none => some value
      | some state =>
          if truthy state.ip then firstUnmet docker_state rest
          else some value

/-- The notification content `run_container` produces for an unmet
dependency target `value`: "not loaded" when `docker_state` has no record
for it, "does not have an IP address" when a record exists. -/
def depErrorContent (docker_state : DockerStateModel) (value : String) :
    String :=
  match lookupState docker_state value with
  | none => "Container \"" ++ value ++ "\" is not loaded"
  | some _ => "Container \"" ++ value ++ "\" does not have an IP address"

/-- An action is a "bare" non-`RUNNING` status action: every `setStatus`
whose status is not `RUNNING` carries no ports and no ip. -/
def nonRunningBare : Action → Bool
  | Action.setStatus _ status ports ip =>
      status = ImageStatus.RUNNING || (ports.isEmpty && ip.isNone)
  | _ => true

/-- The store invariant "ports/ip only while RUNNING". -/
def clearedUnlessRunning (s : ImageStoreState) : Prop :=
  s.status ≠ ImageStatus.RUNNING → s.ports = [] ∧ s.ip = none

/-- The status of the last `setStatus` action addressed to `image_id`. -/
def finalStatusFor (image_id : String) : List Action → Option ImageStatus
  | [] => none
  | a :: rest =>
      (finalStatusFor image_id rest).orElse fun _ =>
        match a with
        | Action.setStatus image status _ _ =>
            if image = image_id then some status else none
        | _ => none

/-! Shared lemmas. -/

lemma resolve_hosts_error_notify (docker_state : DockerStateModel)
    (hosts : List (String × String)) (a : Action)
    (h : resolve_hosts docker_state hosts = Except.error a) :
    ∃ content,
      a = Action.notify "Dependency error" content Importance.MEDIUM := by
  induction hosts with
  | nil => simp [resolve_hosts] at h
  | cons p rest ih =>
      obtain ⟨key, value⟩ := p
      simp only [resolve_hosts] at h
      rcases hl : lookupState docker_state value with _ | state
      · rw [hl] at h
        exact ⟨_, (Except.error.injEq _ _).mp h |>.symm⟩
      · rw [hl] at h
        by_cases ht : truthy state.ip
        · simp only [ht, if_true] at h
          rcases hr : resolve_hosts docker_state rest with b | l
          · rw [hr] at h
            simp only at h
            cases h
            exact ih hr
          · rw [hr] at h
            simp at h
        · simp only [ht] at h
          simp only [Bool.false_eq_true, if_false] at h
          exact ⟨_, (Except.error.injEq _ _).mp h |>.symm⟩

lemma resolve_hosts_firstUnmet (docker_state : DockerStateModel)
    (hosts : List (String × String)) (v : String)
    (h : firstUnmet docker_state hosts = some v) :
    resolve_hosts docker_state hosts =
      Except.error (Action.notify "Dependency error"
        (depErrorContent docker_state v) Importance.MEDIUM) := by
  induction hosts with
  | nil => simp [firstUnmet] at h
  | cons p rest ih =>
      obtain ⟨key, value⟩ := p
      simp only [firstUnmet] at h
      simp only [resolve_hosts]
      rcases hl : lookupState docker_state value with _ | state
      · rw [hl] at h
        cases h
        simp [depErrorContent, hl]
      · rw [hl] at h
        by_cases ht : truthy state.ip
        · simp only [ht, if_true] at h ⊢
          rw [ih h]
        · simp only [ht, Bool.false_eq_true, if_false] at h ⊢
          cases h
          simp [depErrorContent, hl]

lemma finalStatus_append_setStatus (l : List Action) (image : String)
    (status : ImageStatus) (ports : List String) (ip : Option String) :
    finalStatus (l ++ [Action.setStatus image status ports ip]) =
      some status := by
  simp [finalStatus, List.foldl_append]

lemma apply_actions_status (image_id : String) (actions : List Action) :
    ∀ s : ImageStoreState,
      (apply_actions image_id s actions).status =
        (finalStatusFor image_id actions).getD s.status := by
  induction actions with
  | nil => intro s; rfl
  | cons a rest ih =>
      intro s
      show (apply_actions image_id (apply_action image_id s a) rest).status = _
      rw [ih]
      rcases hrest : finalStatusFor image_id rest with _ | x
      · simp only [finalStatusFor, hrest, Option.none_orElse, Option.getD_none]
        cases a with
        | setStatus image status ports ip =>
            by_cases him : image = image_id
            · simp [apply_action, him]
            · simp [apply_action, him]
        | setDockerId image dockerId =>
            by_cases him : image = image_id
            · simp [apply_action, him]
            · simp [apply_action, him]
        | notify title content importance => simp [apply_action]
      · simp [finalStatusFor, hrest]

lemma apply_actions_cleared (image_id : String) (actions : List Action) :
    ∀ s : ImageStoreState, clearedUnlessRunning s →
      actions.all nonRunningBare = true →
      clearedUnlessRunning (apply_actions image_id s actions) := by
  induction actions with
  | nil => intro s hs _; exact hs
  | cons a rest ih =>
      intro s hs hall
      rw [List.all_cons, Bool.and_eq_true] at hall
      refine ih (apply_action image_id s a) ?_ hall.2
      have hbare := hall.1
      cases a with
      | setStatus image status ports ip =>
          by_cases him : image = image_id
          · simp only [apply_action, him, if_true]
            intro hst
            simp only [nonRunningBare, Bool.or_eq_true, decide_eq_true_eq,
              Bool.and_eq_true, List.isEmpty_iff, Option.isNone_iff_eq_none]
              at hbare
            rcases hbare with hrun | hcleared
            · exact absurd hrun hst
            · exact hcleared
          · simpa [apply_action, him] using hs
      | setDockerId image dockerId =>
          by_cases him : image = image_id
          · intro hst
            simp only [apply_action, him, if_true] at hst ⊢
            exact hs hst
          · simpa [apply_action, him] using hs
      | notify title content importance => exact hs

lemma monitor_trace_length (image_id path : String) :
    ∀ (evts : List EventCtx) (s : ImageStoreState),
      (monitor_trace image_id path s evts).length = evts.length := by
  intro evts
  induction evts with
  | nil => intro s; rfl
  | cons c rest ih => intro s; simp [monitor_trace, ih]

lemma monitor_states_length (image_id path : String) :
    ∀ (evts : List EventCtx) (s : ImageStoreState),
      (monitor_states image_id path s evts).length = evts.length + 1 := by
  intro evts
  induction evts with
  | nil => intro s; rfl
  | cons c rest ih => intro s; simp [monitor_states, ih]

lemma getD_congr_default {α : Type} (l : List α) (i : Nat) (d d' : α)
    (h : i < l.length) : l.getD i d = l.getD i d' := by
  rw [List.getD_eq_getElem l d h, List.getD_eq_getElem l d' h]

lemma update_container_all_bare (image_id : String) (c : Container) :
    (update_container image_id c).all nonRunningBare = true := by
  by_cases hc : c.status = "running" <;>
    simp [update_container, hc, nonRunningBare]

lemma check_container_finalStatus_isSome (image_id path : String)
    (lookup : ImageLookup) (containers : List Container) :
    (finalStatusFor image_id
      (check_container image_id path lookup containers).actions).isSome := by
  cases lookup with
  | found id =>
      simp only [check_container]
      rcases hc : find_container containers path with _ | container
      · by_cases ht : truthy id <;>
          simp [ht, finalStatusFor]
      · by_cases ht : truthy id <;>
        by_cases hrun : container.status = "running" <;>
          simp [ht, hrun, update_container, finalStatusFor]
  | foundOther => simp [check_container, finalStatusFor]
  | notFound => simp [check_container, finalStatusFor]
  | daemonError => simp [check_container, finalStatusFor]

/-! Claim theorems. -/

/-- Claim C1 (counterexample): the claim says an unmet dependency makes
`run(image)` perform zero daemon calls, but even then `run_container`
first performs the `containers.list` daemon call (inside
`find_container`, image.py:278) before resolving dependencies.  Concrete
input: image `api:latest`, declared dependency `db → "database"`, the
store holding an `ImageState` for `database` with `container_ip = None`,
and no existing container on the daemon. -/
theorem run_dependency_gate_daemon_call_counterexample :
    lookupState [("database",
        ⟨ImageStatus.AVAILABLE, none, [], none⟩)] "database" =
      some ⟨ImageStatus.AVAILABLE, none, [], none⟩ ∧
    (run_container "api:latest" [("db", "database")]
        [("database", ⟨ImageStatus.AVAILABLE, none, [], none⟩)] []).calls =
      [DaemonCall.listContainers] ∧
    (run_container "api:latest" [("db", "database")]
        [("database", ⟨ImageStatus.AVAILABLE, none, [], none⟩)] []).calls ≠
      [] ∧
    (run_container "api:latest" [("db", "database")]
        [("database", ⟨ImageStatus.AVAILABLE, none, [], none⟩)] []).actions =
      [Action.notify "Dependency error"
        "Container \"database\" does not have an IP address"
        Importance.MEDIUM] :=
  ⟨rfl, rfl, by decide, rfl⟩

/-- Claim C1 (amended): when no container for the image exists on the daemon and
the declared dependency map has an unmet target, `run_container` performs
only the initial `containers.list` daemon call — in particular no
container run or start call — dispatches no status action, and dispatches
exactly one medium-severity notification naming the first unmet
dependency, aborting before the container-creating daemon call. -/
theorem run_dependency_gate_amended (path : String)
    (hosts : List (String × String)) (docker_state : DockerStateModel)
    (containers : List Container) (v : String)
    (hnoc : find_container containers path = none)
    (hunmet : firstUnmet docker_state hosts = some v) :
    (run_container path hosts docker_state containers).calls =
      [DaemonCall.listContainers] ∧
    (run_container path hosts docker_state containers).actions =
      [Action.notify "Dependency error" (depErrorContent docker_state v)
        Importance.MEDIUM] := by
  have hres := resolve_hosts_firstUnmet docker_state hosts v hunmet
  unfold run_container
  rw [hnoc, hres]
  exact ⟨rfl, rfl⟩

/-- Witness for C1 (amended) at the concrete input of the
counterexample. -/
theorem run_dependency_gate_amended_witness :
    (run_container "api:latest" [("db", "database")]
        [("database", ⟨ImageStatus.AVAILABLE, none, [], none⟩)] []).calls =
      [DaemonCall.listContainers] ∧
    (run_container "api:latest" [("db", "database")]
        [("database", ⟨ImageStatus.AVAILABLE, none, [], none⟩)] []).actions =
      [Action.notify "Dependency error"
        "Container \"database\" does not have an IP address"
        Importance.MEDIUM] :=
  run_dependency_gate_amended "api:latest" [("db", "database")]
    [("database", ⟨ImageStatus.AVAILABLE, none, [], none⟩)] [] "database"
    rfl rfl

/-- C7: the daemon-mutating operations `run`, `stop`, `remove_image` and
`remove_container` never dispatch a status-changing store action
(`run_container` dispatches at most a dependency-failure notification,
the other three dispatch nothing at all). -/
theorem mutating_ops_no_status_action (path : String)
    (hosts : List (String × String)) (docker_state : DockerStateModel)
    (containers : List Container) :
    (run_container path hosts docker_state containers).actions.all
        (fun a => !isStoreAction a) = true ∧
    (stop_container path containers).actions = [] ∧
    remove_image.actions = [] ∧
    (remove_container path containers).actions = [] := by
  refine ⟨?_, ?_, rfl, ?_⟩
  · unfold run_container
    rcases hc : find_container containers path with _ | container
    · rcases hr : resolve_hosts docker_state hosts with a | entries
      · obtain ⟨content, hcont⟩ :=
          resolve_hosts_error_notify docker_state hosts a hr
        subst hcont
        simp [isStoreAction]
      · simp
    · by_cases hrun : container.status ≠ "running" <;> simp [hrun]
  · unfold stop_container
    rcases hc : find_container containers path with _ | container
    · rfl
    · by_cases hrun : container.status ≠ "exited" <;> simp [hrun]
  · unfold remove_container
    rcases hc : find_container containers path with _ | container <;> rfl

/-- C9: with a fixed daemon-side state (same `images.get` outcome and same
container list), issuing `check` twice in a row leaves the store status
after the second call equal to the status after the first call, whatever
the starting state. -/
theorem check_idempotent (image_id path : String) (lookup : ImageLookup)
    (containers : List Container) (s : ImageStoreState) :
    (apply_actions image_id
        (apply_actions image_id s
          (check_container image_id path lookup containers).actions)
        (check_container image_id path lookup containers).actions).status =
      (apply_actions image_id s
        (check_container image_id path lookup containers).actions).status := by
  have hsome := check_container_finalStatus_isSome image_id path lookup
    containers
  rcases hx : finalStatusFor image_id
      (check_container image_id path lookup containers).actions with _ | x
  · rw [hx] at hsome
    simp at hsome
  · rw [apply_actions_status, apply_actions_status, hx]
    rfl

/-- C10: when a container for the image already exists on the daemon (in
any status), `run_container` dispatches nothing at all — in particular no
dependency notification, whatever the declared dependencies and however
unmet they are — never issues a container-creating `run` call, and issues
`start` exactly when the container's status is not `'running'`. -/
theorem run_existing_container_spec (path : String)
    (hosts : List (String × String)) (docker_state : DockerStateModel)
    (containers : List Container) (c : Container)
    (h : find_container containers path = some c) :
    (run_container path hosts docker_state containers).actions = [] ∧
    (DaemonCall.startContainer ∈
        (run_container path hosts docker_state containers).calls ↔
      c.status ≠ "running") ∧
    ∀ extraHosts, DaemonCall.runContainer extraHosts ∉
      (run_container path hosts docker_state containers).calls := by
  unfold run_container
  rw [h]
  by_cases hrun : c.status ≠ "running" <;> simp [hrun]

/-- Witness for C10: an `exited` container for `api:latest` exists while a
dependency is declared and unmet; `run` dispatches nothing and starts the
container. -/
theorem run_existing_container_spec_witness :
    (run_container "api:latest" [("db", "database")] []
        [⟨some ["api:latest"], "exited", [], none⟩]).actions = [] ∧
    (DaemonCall.startContainer ∈
        (run_container "api:latest" [("db", "database")] []
          [⟨some ["api:latest"], "exited", [], none⟩]).calls ↔
      ("exited" : String) ≠ "running") ∧
    ∀ extraHosts, DaemonCall.runContainer extraHosts ∉
      (run_container "api:latest" [("db", "database")] []
        [⟨some ["api:latest"], "exited", [], none⟩]).calls :=
  run_existing_container_spec "api:latest" [("db", "database")] []
    [⟨some ["api:latest"], "exited", [], none⟩]
    ⟨some ["api:latest"], "exited", [], none⟩ rfl

/-- Claim C2 (counterexample): the claim says a successful `fetch` records the
daemon image id and sets `AVAILABLE`, but `_fetch_image` dispatches
nothing after the pull stream ends: a successful pull with two progress
lines dispatches three `FETCHING` actions and nothing else, so the final
dispatched status is `FETCHING`, not `AVAILABLE`, and no docker id is
recorded. -/
theorem fetch_success_no_available_counterexample :
    fetch_image "web" (PullResult.success 2) =
      [Action.setStatus "web" ImageStatus.FETCHING [] none,
       Action.setStatus "web" ImageStatus.FETCHING [] none,
       Action.setStatus "web" ImageStatus.FETCHING [] none] ∧
    finalStatus (fetch_image "web" (PullResult.success 2)) =
      some ImageStatus.FETCHING ∧
    finalStatus (fetch_image "web" (PullResult.success 2)) ≠
      some ImageStatus.AVAILABLE ∧
    Action.setDockerId "web" "sha:abc123" ∉
      fetch_image "web" (PullResult.success 2) :=
  ⟨rfl, rfl, by decide, by decide⟩

/-- Claim C2 (amended): `fetch` first sets `FETCHING` and re-dispatches
`FETCHING` for each streamed pull-progress line; on a daemon error it sets
`ERROR`; on successful completion it dispatches nothing further — the
daemon id and `AVAILABLE` are recorded by the event monitor's `pull`
handler, not by `fetch` itself. -/
theorem fetch_image_spec_amended (image_id : String) (n : Nat) :
    fetch_image image_id (PullResult.success n) =
      List.replicate (n + 1)
        (Action.setStatus image_id ImageStatus.FETCHING [] none) ∧
    fetch_image image_id (PullResult.failure n) =
      List.replicate (n + 1)
        (Action.setStatus image_id ImageStatus.FETCHING [] none) ++
        [Action.setStatus image_id ImageStatus.ERROR [] none] ∧
    finalStatus (fetch_image image_id (PullResult.success n)) =
      some ImageStatus.FETCHING ∧
    finalStatus (fetch_image image_id (PullResult.failure n)) =
      some ImageStatus.ERROR := by
  have hsucc : fetch_image image_id (PullResult.success n) =
      List.replicate (n + 1)
        (Action.setStatus image_id ImageStatus.FETCHING [] none) := by
    simp [fetch_image, List.replicate_succ]
  have hfail : fetch_image image_id (PullResult.failure n) =
      List.replicate (n + 1)
        (Action.setStatus image_id ImageStatus.FETCHING [] none) ++
        [Action.setStatus image_id ImageStatus.ERROR [] none] := by
    simp [fetch_image, List.replicate_succ]
  refine ⟨hsucc, hfail, ?_, ?_⟩
  · rw [hsucc, List.replicate_succ']
    exact finalStatus_append_setStatus _ _ _ _ _
  · rw [hfail]
    exact finalStatus_append_setStatus _ _ _ _ _

/-- Claim C3 (code behaviour at the failing input): a dependency target that is
not a known managed-image identifier is *not* passed through as a literal
host — `run_container` aborts with a "not loaded" dependency notification
and never reaches the `containers.run` call.  The pass-through branch
(image.py:311, `hosts[key] = value`) is unreachable behind the early
return of line 285-295. -/
theorem literal_host_not_passed_through :
    (run_container "api:latest" [("db", "203.0.113.5")]
        [("api", ⟨ImageStatus.AVAILABLE, none, [], none⟩)] []).actions =
      [Action.notify "Dependency error"
        "Container \"203.0.113.5\" is not loaded" Importance.MEDIUM] ∧
    (run_container "api:latest" [("db", "203.0.113.5")]
        [("api", ⟨ImageStatus.AVAILABLE, none, [], none⟩)] []).calls =
      [DaemonCall.listContainers] ∧
    DaemonCall.runContainer [("db", "203.0.113.5")] ∉
      (run_container "api:latest" [("db", "203.0.113.5")]
        [("api", ⟨ImageStatus.AVAILABLE, none, [], none⟩)] []).calls :=
  ⟨rfl, rfl, by decide⟩

/-- C4: `check` dispatches `NOT_AVAILABLE` when the image is not found
(not `ERROR`), `ERROR` on a daemon connection failure, and when the image
is found records its truthy daemon id and ends on `RUNNING` (with the
container's ports and bridge ip), `CREATED`, or `AVAILABLE` according to
the discovered container; in every case the event stream monitor is
started. -/
theorem check_container_spec (image_id path : String)
    (containers : List Container) (lookup : ImageLookup) :
    (check_container image_id path lookup containers).monitorStarted =
      true ∧
    (check_container image_id path ImageLookup.notFound containers).actions =
      [Action.setStatus image_id ImageStatus.NOT_AVAILABLE [] none] ∧
    (check_container image_id path ImageLookup.daemonError
        containers).actions =
      [Action.setStatus image_id ImageStatus.ERROR [] none] ∧
    (∀ d : String, d ≠ "" →
      Action.setDockerId image_id d ∈
        (check_container image_id path (ImageLookup.found (some d))
          containers).actions) ∧
    (∀ id : Option String, find_container containers path = none →
      finalStatus (check_container image_id path (ImageLookup.found id)
        containers).actions = some ImageStatus.AVAILABLE) ∧
    (∀ (id : Option String) (c : Container),
      find_container containers path = some c →
      (c.status = "running" →
        Action.setStatus image_id ImageStatus.RUNNING
            (c.portBindings.map fun i => i.1 ++ ":" ++ i.2) c.attrs ∈
          (check_container image_id path (ImageLookup.found id)
            containers).actions ∧
        finalStatus (check_container image_id path (ImageLookup.found id)
          containers).actions = some ImageStatus.RUNNING) ∧
      (c.status ≠ "running" →
        finalStatus (check_container image_id path (ImageLookup.found id)
          containers).actions = some ImageStatus.CREATED)) := by
  refine ⟨?_, rfl, rfl, ?_, ?_, ?_⟩
  · cases lookup with
    | found id =>
        unfold check_container
        rcases hfc : find_container containers path with _ | c <;>
          simp [hfc]
    | foundOther => rfl
    | notFound => rfl
    | daemonError => rfl
  · intro d hd
    have ht : truthy (some d) = true := by simp [truthy, hd]
    unfold check_container
    rcases hfc : find_container containers path with _ | c <;>
      simp [hfc, ht]
  · intro id hfc
    unfold check_container
    rw [hfc]
    by_cases ht : truthy id <;> simp [ht, finalStatus]
  · intro id c hfc
    constructor
    · intro hrun
      unfold check_container
      rw [hfc]
      by_cases ht : truthy id <;>
        simp [ht, update_container, hrun, finalStatus]
    · intro hrun
      unfold check_container
      rw [hfc]
      by_cases ht : truthy id <;>
        simp [ht, update_container, hrun, finalStatus]

/-- Witness for C4: image `web` found with id `sha:abc123` and a running
container bound to `0.0.0.0:8080` with bridge ip `172.17.0.2`. -/
theorem check_container_spec_witness :
    (check_container "web" "web:latest"
        (ImageLookup.found (some "sha:abc123"))
        [⟨some ["web:latest"], "running", [("0.0.0.0", "8080")],
          some "172.17.0.2"⟩]).monitorStarted = true ∧
    Action.setDockerId "web" "sha:abc123" ∈
      (check_container "web" "web:latest"
        (ImageLookup.found (some "sha:abc123"))
        [⟨some ["web:latest"], "running", [("0.0.0.0", "8080")],
          some "172.17.0.2"⟩]).actions ∧
    Action.setStatus "web" ImageStatus.RUNNING ["0.0.0.0:8080"]
        (some "172.17.0.2") ∈
      (check_container "web" "web:latest"
        (ImageLookup.found (some "sha:abc123"))
        [⟨some ["web:latest"], "running", [("0.0.0.0", "8080")],
          some "172.17.0.2"⟩]).actions := by
  have h := check_container_spec "web" "web:latest"
    [⟨some ["web:latest"], "running", [("0.0.0.0", "8080")],
      some "172.17.0.2"⟩] (ImageLookup.found (some "sha:abc123"))
  refine ⟨h.1, h.2.2.2.1 "sha:abc123" (by decide), ?_⟩
  exact (h.2.2.2.2.2 (some "sha:abc123")
    ⟨some ["web:latest"], "running", [("0.0.0.0", "8080")],
      some "172.17.0.2"⟩ rfl).1 rfl |>.1

/-- Claim C5 (counterexample): the claim says a failing image lookup after a
matching `pull` event sets `ERROR`, but `_monitor_events` catches the
`DockerException` and dispatches `NOT_AVAILABLE` (image.py:112-118). -/
theorem monitor_pull_failure_counterexample :
    monitor_step "web" "web:latest" none ImageLookup.daemonError []
        ⟨"image", "pull", "web:latest", ""⟩ =
      [Action.setStatus "web" ImageStatus.NOT_AVAILABLE [] none] ∧
    Action.setStatus "web" ImageStatus.ERROR [] none ∉
      monitor_step "web" "web:latest" none ImageLookup.daemonError []
        ⟨"image", "pull", "web:latest", ""⟩ :=
  ⟨by decide, by decide⟩

/-- Claim C5 (amended): on an image `pull` event whose subject matches the
reference path, the monitor re-fetches the image record, dispatches
`AVAILABLE` and records the authoritative image id (when the lookup
yields one); if the subsequent lookup fails with a daemon error it
dispatches `NOT_AVAILABLE`, not `ERROR`. -/
theorem monitor_pull_spec_amended (image_id path : String)
    (current_docker_id : Option String) (containers : List Container)
    (e : Event) (oid : Option String) (htype : e.type = "image")
    (hpull : e.status = "pull") (hid : e.id = path) :
    (monitor_step image_id path current_docker_id (ImageLookup.found oid)
        containers e).head? =
      some (Action.setStatus image_id ImageStatus.AVAILABLE [] none) ∧
    (∀ d : String, oid = some d → d ≠ "" →
      Action.setDockerId image_id d ∈
        monitor_step image_id path current_docker_id
          (ImageLookup.found oid) containers e) ∧
    monitor_step image_id path current_docker_id ImageLookup.daemonError
        containers e =
      [Action.setStatus image_id ImageStatus.NOT_AVAILABLE [] none] ∧
    monitor_step image_id path current_docker_id ImageLookup.notFound
        containers e =
      [Action.setStatus image_id ImageStatus.NOT_AVAILABLE [] none] := by
  refine ⟨?_, ?_, ?_, ?_⟩
  · unfold monitor_step
    simp [htype, hpull, hid]
  · intro d hd hne
    subst hd
    have ht : truthy (some d) = true := by simp [truthy, hne]
    unfold monitor_step
    simp [htype, hpull, hid, ht]
  · unfold monitor_step
    simp [htype, hpull, hid]
  · unfold monitor_step
    simp [htype, hpull, hid]

/-- Witness for C5 (amended) at a concrete matching pull event. -/
theorem monitor_pull_spec_amended_witness :
    (monitor_step "web" "web:latest" none
        (ImageLookup.found (some "sha:abc123")) []
        ⟨"image", "pull", "web:latest", ""⟩).head? =
      some (Action.setStatus "web" ImageStatus.AVAILABLE [] none) ∧
    Action.setDockerId "web" "sha:abc123" ∈
      monitor_step "web" "web:latest" none
        (ImageLookup.found (some "sha:abc123")) []
        ⟨"image", "pull", "web:latest", ""⟩ ∧
    monitor_step "web" "web:latest" none ImageLookup.daemonError []
        ⟨"image", "pull", "web:latest", ""⟩ =
      [Action.setStatus "web" ImageStatus.NOT_AVAILABLE [] none] := by
  have h := monitor_pull_spec_amended "web" "web:latest" none []
    ⟨"image", "pull", "web:latest", ""⟩ (some "sha:abc123") rfl rfl rfl
  exact ⟨h.1, h.2.1 "sha:abc123" rfl (by decide), h.2.2.1⟩

/-- C6: at every iteration of the monitor loop, an image `delete` event
dispatches `NOT_AVAILABLE` exactly when its subject equals the docker id
read from the store state *as updated by the actions of the earlier
events of the run* (the `get_docker_id` autorun re-reads the store each
time), not a value captured when the loop started. -/
theorem monitor_delete_fresh_id (image_id path : String) :
    ∀ (evts : List EventCtx) (s : ImageStoreState) (i : Nat)
      (hi : i < evts.length),
      (evts.get ⟨i, hi⟩).event.type = "image" →
      (evts.get ⟨i, hi⟩).event.status = "delete" →
      (Action.setStatus image_id ImageStatus.NOT_AVAILABLE [] none ∈
          (monitor_trace image_id path s evts).getD i [] ↔
        ((monitor_states image_id path s evts).getD i s).dockerId =
          some (evts.get ⟨i, hi⟩).event.id) := by
  intro evts
  induction evts with
  | nil =>
      intro s i hi
      exact absurd hi (by simp)
  | cons c rest ih =>
      intro s i hi htype hstatus
      cases i with
      | zero =>
          simp only [List.get] at htype hstatus ⊢
          simp only [monitor_trace, monitor_states, List.getD_cons_zero]
          unfold monitor_step
          by_cases hd : s.dockerId = some c.event.id
          · simp [htype, hstatus, hd]
          · simp [htype, hstatus, hd]
      | succ j =>
          have hj : j < rest.length := by
            simpa using hi
          simp only [List.get] at htype hstatus ⊢
          simp only [monitor_trace, monitor_states, List.getD_cons_succ]
          rw [getD_congr_default _ j s
            (apply_actions image_id s
              (monitor_step image_id path s.dockerId c.lookup c.containers
                c.event))
            (by rw [monitor_states_length]; omega)]
          exact ih _ j hj htype hstatus

/-- Witness for C6: the store starts with docker id `sha:old`; the first
event is a matching `pull` that records `sha:new`; the second is a
`delete` for `sha:new`, which matches the freshly read id (not the
captured `sha:old`) and so dispatches `NOT_AVAILABLE`. -/
theorem monitor_delete_fresh_id_witness :
    (⟨ImageStatus.NOT_AVAILABLE, some "sha:old", [],
        none⟩ : ImageStoreState).dockerId ≠ some "sha:new" ∧
    Action.setStatus "web" ImageStatus.NOT_AVAILABLE [] none ∈
      (monitor_trace "web" "web:latest"
        ⟨ImageStatus.NOT_AVAILABLE, some "sha:old", [], none⟩
        [⟨⟨"image", "pull", "web:latest", ""⟩,
            ImageLookup.found (some "sha:new"), []⟩,
         ⟨⟨"image", "delete", "sha:new", ""⟩,
            ImageLookup.daemonError, []⟩]).getD 1 [] :=
  ⟨by decide,
    (monitor_delete_fresh_id "web" "web:latest"
      [⟨⟨"image", "pull", "web:latest", ""⟩,
          ImageLookup.found (some "sha:new"), []⟩,
       ⟨⟨"image", "delete", "sha:new", ""⟩,
          ImageLookup.daemonError, []⟩]
      ⟨ImageStatus.NOT_AVAILABLE, some "sha:old", [], none⟩ 1
      (by decide) rfl rfl).mpr (by decide)⟩

/-- Claim C8 (counterexample): the claim requires every dispatched `RUNNING`
status action to carry non-empty ports, but a running container with no
published ports makes `update_container` dispatch `RUNNING` with an empty
ports list; applying that action leaves the store `RUNNING` with
`ports = []`, so "`ports` non-empty iff `RUNNING`" fails. -/
theorem running_action_empty_ports_counterexample :
    update_container "web"
        ⟨some ["web:latest"], "running", [], some "172.17.0.2"⟩ =
      [Action.setStatus "web" ImageStatus.RUNNING [] (some "172.17.0.2")] ∧
    (apply_actions "web" ⟨ImageStatus.NOT_AVAILABLE, none, [], none⟩
        (update_container "web"
          ⟨some ["web:latest"], "running", [], some "172.17.0.2"⟩)).status =
      ImageStatus.RUNNING ∧
    (apply_actions "web" ⟨ImageStatus.NOT_AVAILABLE, none, [], none⟩
        (update_container "web"
          ⟨some ["web:latest"], "running", [], none⟩)).ip = none ∧
    (apply_actions "web" ⟨ImageStatus.NOT_AVAILABLE, none, [], none⟩
        (update_container "web"
          ⟨some ["web:latest"], "running", [], some "172.17.0.2"⟩)).ports =
      [] :=
  ⟨rfl, rfl, rfl, rfl⟩

/-- Claim C8 (amended): every status action dispatched by the reconciler with a
status other than `RUNNING` carries empty ports and no ip — so, with the
reducer replacing `ports`/`container_ip` by the payload of each status
action, any transition away from `RUNNING` clears them and the store
invariant "ports/ip only while `RUNNING`" is preserved; a `RUNNING`
action, however, may itself carry an empty ports list or no ip when the
daemon reports none. -/
theorem ports_ip_cleared_amended (image_id path : String)
    (lookup : ImageLookup) (containers : List Container)
    (pull : PullResult) (current_docker_id : Option String) (e : Event)
    (c : Container) (hosts : List (String × String))
    (docker_state : DockerStateModel) :
    (update_container image_id c).all nonRunningBare = true ∧
    (check_container image_id path lookup containers).actions.all
      nonRunningBare = true ∧
    (fetch_image image_id pull).all nonRunningBare = true ∧
    (monitor_step image_id path current_docker_id lookup containers e).all
      nonRunningBare = true ∧
    (run_container path hosts docker_state containers).actions.all
      nonRunningBare = true ∧
    ∀ (s : ImageStoreState) (actions : List Action),
      clearedUnlessRunning s → actions.all nonRunningBare = true →
      clearedUnlessRunning (apply_actions image_id s actions) := by
  refine ⟨update_container_all_bare image_id c, ?_, ?_, ?_, ?_, ?_⟩
  · cases lookup with
    | found id =>
        unfold check_container
        rcases hfc : find_container containers path with _ | c2
        · by_cases ht : truthy id <;> simp [hfc, ht, nonRunningBare]
        · by_cases ht : truthy id <;>
            simp [hfc, ht, nonRunningBare, update_container_all_bare,
              List.all_append]
    | foundOther => rfl
    | notFound => rfl
    | daemonError => rfl
  · cases pull with
    | success n =>
        simp only [fetch_image, List.all_eq_true]
        intro a ha
        rcases List.mem_cons.mp ha with h | h
        · subst h; rfl
        · rw [List.eq_of_mem_replicate h]; rfl
    | failure n =>
        simp only [fetch_image, List.all_eq_true]
        intro a ha
        rcases List.mem_cons.mp ha with h | h
        · subst h; rfl
        rcases List.mem_append.mp h with h2 | h2
        · rw [List.eq_of_mem_replicate h2]; rfl
        · rw [List.mem_singleton.mp h2]; rfl
  · unfold monitor_step
    repeat' split
    all_goals
      first
      | rfl
      | exact update_container_all_bare image_id _
  · rcases hfc : find_container containers path with _ | c2
    · rcases hr : resolve_hosts docker_state hosts with a | entries
      · obtain ⟨content, hcont⟩ :=
          resolve_hosts_error_notify docker_state hosts a hr
        subst hcont
        unfold run_container
        rw [hfc, hr]
        rfl
      · unfold run_container
        rw [hfc, hr]
        rfl
    · unfold run_container
      rw [hfc]
      by_cases hr2 : c2.status ≠ "running" <;> simp [hr2]
  · exact fun s actions hs hall =>
      apply_actions_cleared image_id actions s hs hall

/-- Witness for C8 (amended): a `die` event's `CREATED` action applied to
a `RUNNING` store state with ports and ip clears both. -/
theorem ports_ip_cleared_amended_witness :
    (update_container "web"
        ⟨some ["web:latest"], "exited", [("0.0.0.0", "8080")],
          some "172.17.0.2"⟩).all nonRunningBare = true ∧
    clearedUnlessRunning
      (apply_actions "web"
        ⟨ImageStatus.RUNNING, some "sha:abc123", ["0.0.0.0:8080"],
          some "172.17.0.2"⟩
        [Action.setStatus "web" ImageStatus.CREATED [] none]) := by
  have h := ports_ip_cleared_amended "web" "web:latest"
    ImageLookup.notFound [] (PullResult.success 0) none
    ⟨"container", "die", "", "web:latest"⟩
    ⟨some ["web:latest"], "exited", [("0.0.0.0", "8080")],
      some "172.17.0.2"⟩ [] []
  exact ⟨h.1, h.2.2.2.2.2
    ⟨ImageStatus.RUNNING, some "sha:abc123", ["0.0.0.0:8080"],
      some "172.17.0.2"⟩
    [Action.setStatus "web" ImageStatus.CREATED [] none]
    (fun hne => absurd rfl hne) (by decide)⟩

end UboDocker
